import Mathlib

/-!
Verification development for the narrated-video generation pipeline.

The repository orchestrates script → scenes → per-scene audio/image
artifacts → muxed segments → one concatenated video, with fallback paths
at every stage.  Pure helpers (string splitting, language detection, tone
selection) are embedded directly; effectful stages (remote providers,
the external muxer, the filesystem) are embedded as total functions over
explicit environment records whose fields are the outcomes of the external
calls (a `none`/`false` field is a failing call, a `some`/`true` field a
successful one, carrying the produced content).  Machine behaviour such as
a raised exception is an `Except.error`/`raised` value.
-/

/-! ## Python string helpers -/

/-- Characters Python treats as whitespace in `str.strip` and `str.split`
(the ASCII ones: space, tab, newline, carriage return, vertical tab,
form feed; exotic Unicode whitespace is not relevant to the claims). -/
def pyIsSpaceChar (c : Char) : Bool :=
  c == ' ' || c == '\t' || c == '\n' || c == '\r' || c == '\x0b' || c == '\x0c'

/-- Python `s.strip()`: drop whitespace from both ends. -/
def pyStrip (s : String) : String :=
  String.mk (((s.data.dropWhile pyIsSpaceChar).reverse.dropWhile pyIsSpaceChar).reverse)

/-- Python `s.startswith(p)` on character lists. -/
def listStarts : List Char → List Char → Bool
  | _, [] => true
  | [], _ :: _ => false
  | c :: cs, p :: ps => c == p && listStarts cs ps

/-- Python `voice_id.startswith("fallback_")`. -/
def startsWithFallback (voiceId : String) : Bool :=
  listStarts voiceId.data ("fallback_".data)

/-- Worker for Python `s.split(". ")`: accumulate the current piece; the flag
records a full stop that may pair with the next character to form the
separator, cutting the piece when a space follows. -/
def splitDotSpaceGo : List Char → List Char → Bool → List String
  | [], acc, pending =>
    [String.mk (if pending then ('.' :: acc).reverse else acc.reverse)]
  | c :: rest, acc, pending =>
    if pending then
      if c == ' ' then String.mk acc.reverse :: splitDotSpaceGo rest [] false
      else if c == '.' then splitDotSpaceGo rest ('.' :: acc) true
      else splitDotSpaceGo rest (c :: '.' :: acc) false
    else
      if c == '.' then splitDotSpaceGo rest acc true
      else splitDotSpaceGo rest (c :: acc) false

/-- Python `s.split(". ")` (used by the AI scene parser fallback). -/
def splitDotSpace (s : String) : List String :=
  splitDotSpaceGo s.data [] false

/-- The sentence-terminating characters of the regular expression
`[.!?]+` used by both mechanical script splitters. -/
def isSentenceTerm (c : Char) : Bool :=
  c == '.' || c == '!' || c == '?'

/-- Worker for Python `re.split(r"[.!?]+", s)`: maximal runs of terminator
characters separate the pieces; the flag records being inside such a run, so
a run of several terminators cuts only once. -/
def splitTermRunsGo : List Char → List Char → Bool → List String
  | [], acc, _ => [String.mk acc.reverse]
  | c :: rest, acc, inRun =>
    if isSentenceTerm c then
      if inRun then splitTermRunsGo rest acc true
      else String.mk acc.reverse :: splitTermRunsGo rest [] true
    else splitTermRunsGo rest (c :: acc) false

/-- Python `re.split(r"[.!?]+", s)`. -/
def reSplitTerms (s : String) : List String :=
  splitTermRunsGo s.data [] false

/-! ## Scene segmentation (advanced_video_generation.py and video.py) -/

/-- A scene descriptor, as built by
`AdvancedVideoGenerationService._parse_script_into_scenes`. -/
structure Scene where
  text : String
  visual_description : String
deriving DecidableEq

/-- The `except` branch of `_parse_script_into_scenes`: split the script on
`". "`, keep the sentences whose strip is non-empty, and turn each into a
scene whose text is the stripped sentence with a restored full stop. -/
def parseScenesFallback (script : String) : List Scene :=
  ((splitDotSpace script).filter (fun s => pyStrip s != "")).map
    (fun s => { text := pyStrip s ++ ".", visual_description := pyStrip s })

/-- Outcome of the remote AI scene-splitting call in
`_parse_script_into_scenes`: any exception, a JSON object without a
`scenes` key (the `.get` default), or a returned scene list. -/
inductive SceneParseRemote where
  | failure
  | noScenesKey
  | scenes (l : List Scene)

/-- `AdvancedVideoGenerationService._parse_script_into_scenes`: use the remote
result when the call succeeds, the whole script as a single scene when the
JSON lacks a `scenes` key, and the mechanical sentence fallback on any
exception. -/
def parseScriptIntoScenes (remote : SceneParseRemote) (script : String) : List Scene :=
  match remote with
  | SceneParseRemote.scenes l => l
  | SceneParseRemote.noScenesKey => [{ text := script, visual_description := script }]
  | SceneParseRemote.failure => parseScenesFallback script

/-- The accumulation loop of `split_script_into_segments` (video.py):
stripped sentences are appended to the current segment (joined by `". "`)
until adding one would push the segment past 200 characters, at which point
the current segment is flushed. -/
def segLoop : List String → List String → String → List String
  | [], segments, current =>
    if pyStrip current == "" then segments else segments ++ [pyStrip current]
  | sentence :: rest, segments, current =>
    let s := pyStrip sentence
    if s == "" then segLoop rest segments current
    else if 200 < current.length + s.length ∧ current ≠ "" then
      segLoop rest (segments ++ [pyStrip current]) s
    else if current ≠ "" then segLoop rest segments (current ++ ". " ++ s)
    else segLoop rest segments s

/-- `split_script_into_segments` (video.py): sentence-split the script,
accumulate segments, and fall back to the whole script when no segment was
produced. -/
def split_script_into_segments (script : String) : List String :=
  if segLoop (reSplitTerms script) [] "" = [] then [script]
  else segLoop (reSplitTerms script) [] ""

/-- `OfflineAIService.split_script`: sentence-split, strip, and drop the
empty results, with no non-empty guard. -/
def split_script (script : String) : List String :=
  ((reSplitTerms script).map pyStrip).filter (fun s => s != "")

/-! ## Language detection and validation (dzongkha_service.py) -/

/-- A character is counted by `detect_language` when its one-character strip
is non-empty, i.e. it is not whitespace. -/
def isNonWs (c : Char) : Bool :=
  !pyIsSpaceChar c

/-- Membership in the single configured script range, the Tibetan block
U+0F00 to U+0FFF. -/
def inTibetanRange (c : Char) : Bool :=
  decide (0xF00 ≤ c.toNat ∧ c.toNat ≤ 0xFFF)

/-- The `total_chars` counter of `detect_language`: non-whitespace
characters. -/
def totalCount (text : String) : Nat :=
  text.data.countP isNonWs

/-- The `dzongkha_chars` counter of `detect_language`: non-whitespace
characters inside the Tibetan block. -/
def dzCount (text : String) : Nat :=
  text.data.countP (fun c => isNonWs c && inTibetanRange c)

/-- The `confidence` quotient `dzongkha_chars / total_chars` computed when
the total is non-zero. -/
def matchFrac (text : String) : ℚ :=
  (dzCount text : ℚ) / (totalCount text : ℚ)

/-- `DzongkhaService.detect_language`: count Tibetan-block characters among
the non-whitespace ones; an empty total is unknown, a quotient above one
half is the target script, anything else is other with the complementary
confidence. -/
def detect_language (text : String) : String × ℚ :=
  if totalCount text = 0 then ("unknown", 0)
  else if 1 / 2 < matchFrac text then ("dz", matchFrac text)
  else ("other", 1 - matchFrac text)

/-- Python `text.split()`: whitespace-separated words, empties dropped.
The worker keeps the current word and flushes it at whitespace. -/
def wordsGo : List Char → List Char → List String
  | [], acc => if acc.isEmpty then [] else [String.mk acc.reverse]
  | c :: rest, acc =>
    if pyIsSpaceChar c then
      if acc.isEmpty then wordsGo rest [] else String.mk acc.reverse :: wordsGo rest []
    else wordsGo rest (c :: acc)

/-- Python `text.split()`. -/
def pyWords (text : String) : List String :=
  wordsGo text.data []

/-- The record returned by `validate_dzongkha_text`. -/
structure ValidationResult where
  is_valid : Bool
  confidence : ℚ
  character_count : Nat
  word_estimate : Nat
deriving DecidableEq

/-- `DzongkhaService.validate_dzongkha_text`: valid exactly when detection
labels the text `dz`, with the detected confidence and the length metrics. -/
def validate_dzongkha_text (text : String) : ValidationResult :=
  let detection := detect_language text
  { is_valid := detection.1 == "dz"
    confidence := detection.2
    character_count := text.data.length
    word_estimate := if text == "" then 0 else (pyWords text).length }

/-! ## Synthetic tone speech (dzongkha_service.py, generate_synthetic_dzongkha_speech) -/

/-- The three tone labels of the synthetic generator. -/
inductive Tone where
  | high
  | mid
  | low
deriving DecidableEq

/-- The tone branch of `generate_synthetic_dzongkha_speech` for a character
code: the Tibetan block U+0F00..U+0FFF is the high tone, the consonant range
U+0F40..U+0F6C the mid tone, everything else the low tone, with the branch
also fixing the tone frequency over the base frequency 180. -/
def toneBranch (charCode : Nat) : Tone × Nat :=
  if 0xF00 ≤ charCode ∧ charCode ≤ 0xFFF then (Tone.high, 180 + charCode % 100 + 50)
  else if 0xF40 ≤ charCode ∧ charCode ≤ 0xF6C then (Tone.mid, 180 + charCode % 50 + 25)
  else (Tone.low, 180 + charCode % 30)

/-- Sample frames contributed by one character at the 22050 Hz rate:
`int(22050 * 0.15) = 3307` tone frames for a non-whitespace character,
`int(22050 * 0.1) = 2205` silence frames for whitespace. -/
def charFrameCount (c : Char) : Nat :=
  if isNonWs c then 3307 else 2205

/-- Total sample frames written by `generate_synthetic_dzongkha_speech`. -/
def synthFrameCount (text : String) : Nat :=
  (text.data.map charFrameCount).sum

/-! ## Text-to-speech routing (voice_cloning.py) -/

/-- Audio artifact contents, tagged by the strategy that produced them. -/
inductive AudioContent where
  | eleven (voiceId text : String)
  | openaiTts (text : String)
  | silent (textLen : Nat)
deriving DecidableEq

/-- The backing calls `generate_speech` can make, in the order made. -/
inductive TtsProvider where
  | elevenlabs
  | openai
  | ffmpegSilent
deriving DecidableEq

/-- Outcomes of the external calls in the speech cascade: a `true` field is
a call that succeeds, a `false` field one that raises. -/
structure TtsEnv where
  elevenOk : Bool
  openaiOk : Bool
  ffmpegOk : Bool

/-- `VoiceCloningService._generate_with_fallback`: try the OpenAI TTS call;
on any exception fall back to an ffmpeg silent-audio render whose
`check=True` failure propagates as an exception.  The second component
lists the backing calls made. -/
def generate_with_fallback (env : TtsEnv) (text : String) :
    Except Unit AudioContent × List TtsProvider :=
  if env.openaiOk then
    (Except.ok (AudioContent.openaiTts text), [TtsProvider.openai])
  else if env.ffmpegOk then
    (Except.ok (AudioContent.silent text.length), [TtsProvider.openai, TtsProvider.ffmpegSilent])
  else
    (Except.error (), [TtsProvider.openai, TtsProvider.ffmpegSilent])

/-- `VoiceCloningService._generate_with_elevenlabs`: try the remote call
with the given voice id; on any exception fall through to
`_generate_with_fallback`. -/
def generate_with_elevenlabs (env : TtsEnv) (text voiceId : String) :
    Except Unit AudioContent × List TtsProvider :=
  if env.elevenOk then
    (Except.ok (AudioContent.eleven voiceId text), [TtsProvider.elevenlabs])
  else
    let r := generate_with_fallback env text
    (r.1, TtsProvider.elevenlabs :: r.2)

/-- `VoiceCloningService.generate_speech`: route to the remote provider
exactly when the client is configured and the voice id does not carry the
fallback tag, else straight to the fallback cascade. -/
def generate_speech (clientConfigured : Bool) (text voiceId : String) (env : TtsEnv) :
    Except Unit AudioContent × List TtsProvider :=
  if clientConfigured && !startsWithFallback voiceId then
    generate_with_elevenlabs env text voiceId
  else generate_with_fallback env text

/-! ## Image generation (image_generation.py) -/

/-- Result of `generate_image_from_text`: an artifact of some byte size
(flagged when the local fallback produced it), or a propagated exception. -/
inductive ImgOutcome where
  | ok (bytes : Nat) (usedFallback : Bool)
  | raised
deriving DecidableEq

/-- Outcomes of the external calls of the image service.  `remote` maps the
enhanced prompt to the byte size of a generated-and-downloaded image, or
`none` for any exception or non-200 download.  `colorRender` maps the hash
colour to the byte size the ffmpeg colour fill writes, `blackRender` is the
last-resort black frame; `none` is a failing invocation.  `pyHash` stands
for the process-randomized Python string hash. -/
structure ImgEnv where
  pyHash : String → Int
  remote : String → Option Nat
  colorRender : Int → Option Nat
  blackRender : Option Nat

/-- `ImageGenerationService._enhance_prompt`: append the style modifier and
the aspect-ratio tag, truncating to 1000 characters. -/
def enhance_prompt (textPrompt style : String) : String :=
  let modifier :=
    if style == "realistic" then "photorealistic, high quality, detailed"
    else if style == "artistic" then "artistic, creative, stylized"
    else if style == "cartoon" then "cartoon style, animated, colorful"
    else if style == "minimalist" then "minimalist, clean, simple design"
    else if style == "cinematic" then "cinematic lighting, dramatic, movie-like"
    else "high quality, detailed"
  let enhanced := textPrompt ++ ", " ++ modifier ++ ", 16:9 aspect ratio"
  if 1000 < enhanced.data.length then String.mk (enhanced.data.take 1000) else enhanced

/-- `ImageGenerationService._generate_fallback_image`: render a colour fill
keyed by `hash(text_prompt) % 16777215`; on failure run the last-resort
black render, whose `check=True` failure propagates (it is outside any
handler). -/
def generate_fallback_image (env : ImgEnv) (textPrompt : String) : ImgOutcome :=
  match env.colorRender (env.pyHash textPrompt % 16777215) with
  | some n => ImgOutcome.ok n true
  | none =>
    match env.blackRender with
    | some n => ImgOutcome.ok n true
    | none => ImgOutcome.raised

/-- `ImageGenerationService.generate_image_from_text`: try the remote
generator on the enhanced prompt (download included); on any exception fall
back to the local render. -/
def generate_image_from_text (env : ImgEnv) (textPrompt style : String) : ImgOutcome :=
  match env.remote (enhance_prompt textPrompt style) with
  | some n => ImgOutcome.ok n false
  | none => generate_fallback_image env textPrompt

/-! ## Segment assembly (video.py, combine_media_to_video) -/

/-- Outcomes of the muxer calls made by `combine_media_to_video`: `segMux`
gives, per pair index, the content of the segment video a zero-exit ffmpeg
run produced (`none` for a non-zero exit, which the loop skips with
`continue`); `concatRes` the content the concatenation run produced
(`none` for a non-zero exit); `lastResort` the content the unchecked
single-pair fallback run in the `except` handler left at the output path
(`none` when it produced no file). -/
structure MuxEnvV where
  segMux : Nat → Option String
  concatRes : Option String
  lastResort : Option String

/-- The per-pair loop of `combine_media_to_video`: zip the audio and image
lists (each entry a flag for `os.path.exists`), keep the contents of the
segment videos the muxer created for pairs whose two files exist. -/
def createdSegments (audioEx imageEx : List Bool) (env : MuxEnvV) : List String :=
  ((audioEx.zip imageEx).enum).filterMap
    (fun p => if p.2.1 && p.2.2 then env.segMux p.1 else none)

/-- `combine_media_to_video`: the returned value is the content at the
output path (`none` when the function returns the path but no file was
produced there).  Empty inputs raise and the handler writes nothing; zero
created segments raise and the handler runs the unchecked single-pair
fallback; one segment is copied; several are concatenated, a concatenation
failure degrading to a copy of the first segment.  The outer handler means
the function itself never raises. -/
def combine_media_to_video (audioEx imageEx : List Bool) (env : MuxEnvV) : Option String :=
  if audioEx.isEmpty || imageEx.isEmpty then none
  else
    match createdSegments audioEx imageEx env with
    | [] => env.lastResort
    | [s] => some s
    | s :: _ :: _ =>
      match env.concatRes with
      | some c => some c
      | none => some s

/-- `OfflineAIService.combine_video_segments`: the input is the list of
segment-file contents (`none` for a path whose muxer run produced no file),
the result `none` when the function returns `None`, else `some` of the
content at the final path.  One segment is copied without a check; several
are concatenated by an unchecked ffmpeg run whose output is `concatRes` —
a concatenation failure leaves no file and no fallback is attempted. -/
def combine_video_segments (segments : List (Option String)) (concatRes : Option String) :
    Option (Option String) :=
  match segments with
  | [] => none
  | [s] => some s
  | _ :: _ :: _ => some concatRes

/-! ## Job pipelines and routes (video.py, offline_ai_service.py, offline_video.py) -/

/-- The pipeline stages a request can invoke, for tracing which stages ran. -/
inductive Stage where
  | segmentation
  | audioGen
  | imageGen
  | assembly
deriving DecidableEq

/-- The three response shapes of the generation routes: a completed
response, the 400 returned on an empty script, and the 500 returned on an
exception or a missing offline artifact. -/
inductive RouteResp where
  | success
  | validationError
  | serverError
deriving DecidableEq

/-- The audio loop of `process_video_generation`: generate speech for each
segment with a non-empty strip; an exception aborts the loop and
propagates.  The second component traces the audio stages run. -/
def genAudioLoop (clientConfigured : Bool) (voiceId : String) (env : TtsEnv) :
    List String → Except Unit (List AudioContent) × List Stage
  | [] => (Except.ok [], [])
  | seg :: rest =>
    if pyStrip seg == "" then genAudioLoop clientConfigured voiceId env rest
    else
      match (generate_speech clientConfigured seg voiceId env).1 with
      | Except.error e => (Except.error e, [Stage.audioGen])
      | Except.ok a =>
        match genAudioLoop clientConfigured voiceId env rest with
        | (Except.error e, t) => (Except.error e, Stage.audioGen :: t)
        | (Except.ok tail, t) => (Except.ok (a :: tail), Stage.audioGen :: t)

/-- The image loop of `process_video_generation`, run after the audio loop
over the same segments with the default style. -/
def genImageLoop (env : ImgEnv) (style : String) :
    List String → Except Unit (List Nat) × List Stage
  | [] => (Except.ok [], [])
  | seg :: rest =>
    if pyStrip seg == "" then genImageLoop env style rest
    else
      match generate_image_from_text env seg style with
      | ImgOutcome.raised => (Except.error (), [Stage.imageGen])
      | ImgOutcome.ok n _ =>
        match genImageLoop env style rest with
        | (Except.error e, t) => (Except.error e, Stage.imageGen :: t)
        | (Except.ok tail, t) => (Except.ok (n :: tail), Stage.imageGen :: t)

/-- `process_video_generation`: segmentation, then the audio loop, then the
image loop (an exception in either propagates), then assembly — the written
audio and image files all exist.  The value is the content at the output
path, the trace the stages run. -/
def processVideoGeneration (script voiceId : String) (clientConfigured : Bool)
    (ttsEnv : TtsEnv) (imgEnv : ImgEnv) (muxEnv : MuxEnvV) :
    Except Unit (Option String) × List Stage :=
  match genAudioLoop clientConfigured voiceId ttsEnv (split_script_into_segments script) with
  | (Except.error e, ta) => (Except.error e, Stage.segmentation :: ta)
  | (Except.ok audios, ta) =>
    match genImageLoop imgEnv "realistic" (split_script_into_segments script) with
    | (Except.error e, tb) => (Except.error e, Stage.segmentation :: (ta ++ tb))
    | (Except.ok images, tb) =>
      (Except.ok (combine_media_to_video (audios.map fun _ => true)
          (images.map fun _ => true) muxEnv),
        Stage.segmentation :: (ta ++ tb ++ [Stage.assembly]))

/-- The `/generate-video` route handler: an empty script is rejected with
the 400 validation error before any pipeline stage runs; an exception from
the pipeline becomes the 500 error; otherwise the completed response is
returned (whatever the content at the output path). -/
def generate_video_route (script voiceId : String) (clientConfigured : Bool)
    (ttsEnv : TtsEnv) (imgEnv : ImgEnv) (muxEnv : MuxEnvV) : RouteResp × List Stage :=
  if script == "" then (RouteResp.validationError, [])
  else
    match processVideoGeneration script voiceId clientConfigured ttsEnv imgEnv muxEnv with
    | (Except.ok _, t) => (RouteResp.success, t)
    | (Except.error _, t) => (RouteResp.serverError, t)

/-- Outcomes of the muxer calls of the offline pipeline: `segMux` the
content the unchecked per-segment run left at the segment path, `concatRes`
the content the unchecked concatenation run left at the final path. -/
structure OfflineEnv where
  segMux : Nat → Option String
  concatRes : Option String

/-- Contents of the segment files `generate_video_offline` hands to the
assembler, one per split segment, indexed from the given counter. -/
def offlineSegContents (env : OfflineEnv) : Nat → List String → List (Option String)
  | _, [] => []
  | i, _ :: rest => env.segMux i :: offlineSegContents env (i + 1) rest

/-- `OfflineAIService.generate_video_offline`: split the script, generate
audio and an image per segment (the offline generators are total: the
synthetic tone fallback always produces a file), mux each segment
unchecked, and combine.  The value is `none` when the function returns
`None`, else the content at the final path; the trace lists the stages. -/
def generate_video_offline_model (script : String) (env : OfflineEnv) :
    Option (Option String) × List Stage :=
  (combine_video_segments (offlineSegContents env 0 (split_script script)) env.concatRes,
    Stage.segmentation ::
      ((split_script script).flatMap (fun _ => [Stage.audioGen, Stage.imageGen]) ++
        [Stage.assembly]))

/-- The `/generate-video-offline` route handler: an empty script is
rejected with the 400 validation error before any pipeline stage runs; a
`None` result or a missing final file becomes the 500 error. -/
def generate_video_offline_route (script : String) (env : OfflineEnv) :
    RouteResp × List Stage :=
  if script == "" then (RouteResp.validationError, [])
  else
    match generate_video_offline_model script env with
    | (some (some _), t) => (RouteResp.success, t)
    | (_, t) => (RouteResp.serverError, t)

/-! ## Helper lemmas -/

lemma countP_and_le (p q : Char → Bool) (l : List Char) :
    l.countP (fun c => p c && q c) ≤ l.countP p := by
  induction l with
  | nil => simp
  | cons a l ih =>
    simp only [List.countP_cons]
    cases hp : p a <;> cases hq : q a <;> simp [hp, hq] <;> omega

lemma dzCount_le_totalCount (text : String) : dzCount text ≤ totalCount text :=
  countP_and_le isNonWs inTibetanRange text.data

lemma matchFrac_nonneg (text : String) : 0 ≤ matchFrac text := by
  unfold matchFrac
  positivity

lemma matchFrac_le_one (text : String) (h : 0 < totalCount text) : matchFrac text ≤ 1 := by
  unfold matchFrac
  rw [div_le_one (by exact_mod_cast h)]
  exact_mod_cast dzCount_le_totalCount text

/-! ## Claim theorems -/

/-- Claim C3: `detect_language` is a pure deterministic function of the text:
with zero non-whitespace characters it returns the `unknown` label with
confidence 0; otherwise, with the quotient of Tibetan-block characters over
non-whitespace characters, it returns `dz` with that quotient when it
exceeds one half and `other` with the complementary confidence otherwise;
the returned confidence always lies in the unit interval. -/
theorem detect_language_spec (text : String) :
    (totalCount text = 0 → detect_language text = ("unknown", 0)) ∧
    (0 < totalCount text →
      (1 / 2 < matchFrac text → detect_language text = ("dz", matchFrac text)) ∧
      (matchFrac text ≤ 1 / 2 → detect_language text = ("other", 1 - matchFrac text))) ∧
    (0 ≤ (detect_language text).2 ∧ (detect_language text).2 ≤ 1) := by
  unfold detect_language
  rcases Nat.eq_zero_or_pos (totalCount text) with h0 | hpos
  · simp [h0]
  · have h0 : ¬ totalCount text = 0 := Nat.pos_iff_ne_zero.mp hpos
    rw [if_neg h0]
    have hnn := matchFrac_nonneg text
    have hle1 := matchFrac_le_one text hpos
    rcases lt_or_le (1 / 2 : ℚ) (matchFrac text) with hgt | hle
    · rw [if_pos hgt]
      refine ⟨fun h => absurd h h0,
        fun _ => ⟨fun _ => rfl, fun h => absurd hgt (not_lt.mpr h)⟩, ?_, ?_⟩
      · exact hnn
      · exact hle1
    · rw [if_neg (not_lt.mpr hle)]
      refine ⟨fun h => absurd h h0,
        fun _ => ⟨fun h => absurd h (not_lt.mpr hle), fun _ => rfl⟩, ?_, ?_⟩
      · dsimp only
        linarith
      · dsimp only
        linarith

lemma matchFrac_single_tibetan : matchFrac "ཀ" = 1 := by
  have h1 : dzCount "ཀ" = 1 := by decide
  have h2 : totalCount "ཀ" = 1 := by decide
  rw [matchFrac, h1, h2]
  norm_num

lemma matchFrac_latin_pair : matchFrac "ab" = 0 := by
  have h1 : dzCount "ab" = 0 := by decide
  rw [matchFrac, h1]
  norm_num

/-- Witness for C3: the hypotheses of each branch of
`detect_language_spec` hold at concrete inputs — the empty string, a single
Tibetan letter, and a Latin pair. -/
theorem detect_language_spec_witness :
    (totalCount "" = 0 ∧ detect_language "" = ("unknown", 0)) ∧
    (0 < totalCount "ཀ" ∧ 1 / 2 < matchFrac "ཀ" ∧
      detect_language "ཀ" = ("dz", matchFrac "ཀ")) ∧
    (0 < totalCount "ab" ∧ matchFrac "ab" ≤ 1 / 2 ∧
      detect_language "ab" = ("other", 1 - matchFrac "ab")) :=
  ⟨⟨by decide, (detect_language_spec "").1 (by decide)⟩,
    ⟨by decide, by rw [matchFrac_single_tibetan]; norm_num,
      ((detect_language_spec "ཀ").2.1 (by decide)).1
        (by rw [matchFrac_single_tibetan]; norm_num)⟩,
    ⟨by decide, by rw [matchFrac_latin_pair]; norm_num,
      ((detect_language_spec "ab").2.1 (by decide)).2
        (by rw [matchFrac_latin_pair]; norm_num)⟩⟩

/-- Claim C4: `validate_dzongkha_text` is valid exactly when
`detect_language` labels the text `dz`, and reports the same confidence. -/
theorem validate_matches_detection (text : String) :
    ((validate_dzongkha_text text).is_valid = true ↔ (detect_language text).1 = "dz") ∧
    (validate_dzongkha_text text).confidence = (detect_language text).2 := by
  constructor
  · simp [validate_dzongkha_text]
  · rfl

/-- Witness for C4: `validate_matches_detection` applied at a concrete
Tibetan-letter input. -/
theorem validate_matches_detection_witness :
    ((validate_dzongkha_text "ཀ").is_valid = true ↔ (detect_language "ཀ").1 = "dz") ∧
    (validate_dzongkha_text "ཀ").confidence = (detect_language "ཀ").2 :=
  validate_matches_detection "ཀ"

/-- Claim C10: for text with at least one non-whitespace character the
returned confidence is at least one half, and a confidence below one half
occurs only with the `unknown` zero-confidence result for empty or
whitespace-only text. -/
theorem detect_language_min_confidence (text : String) :
    (0 < totalCount text → 1 / 2 ≤ (detect_language text).2) ∧
    ((detect_language text).2 < 1 / 2 → detect_language text = ("unknown", 0)) := by
  have hspec := detect_language_spec text
  constructor
  · intro hpos
    rcases le_or_lt (matchFrac text) (1 / 2) with hle | hgt
    · rw [(hspec.2.1 hpos).2 hle]
      dsimp only
      linarith
    · rw [(hspec.2.1 hpos).1 hgt]
      dsimp only
      linarith
  · intro hlt
    rcases Nat.eq_zero_or_pos (totalCount text) with h0 | hpos
    · exact hspec.1 h0
    · exfalso
      rcases le_or_lt (matchFrac text) (1 / 2) with hle | hgt
      · rw [(hspec.2.1 hpos).2 hle] at hlt
        dsimp only at hlt
        linarith
      · rw [(hspec.2.1 hpos).1 hgt] at hlt
        dsimp only at hlt
        linarith

lemma detect_language_empty_snd : (detect_language "").2 < 1 / 2 := by
  have h : detect_language "" = ("unknown", 0) := by
    unfold detect_language
    rw [if_pos (by decide)]
  rw [h]
  norm_num

/-- Witness for C10: the hypotheses of `detect_language_min_confidence`
hold at a single Latin letter and at the empty string. -/
theorem detect_language_min_confidence_witness :
    (0 < totalCount "a" ∧ 1 / 2 ≤ (detect_language "a").2) ∧
    ((detect_language "").2 < 1 / 2 ∧ detect_language "" = ("unknown", 0)) :=
  ⟨⟨by decide, (detect_language_min_confidence "a").1 (by decide)⟩,
    ⟨detect_language_empty_snd,
      (detect_language_min_confidence "").2 detect_language_empty_snd⟩⟩

lemma segLoop_cons_ws (a : String) (l segments : List String) (current : String)
    (ha : pyStrip a = "") :
    segLoop (a :: l) segments current = segLoop l segments current := by
  simp only [segLoop, ha]
  rfl

lemma segLoop_all_ws (l : List String) (segments : List String) (current : String)
    (h : ∀ s ∈ l, pyStrip s = "") :
    segLoop l segments current = segLoop [] segments current := by
  induction l with
  | nil => rfl
  | cons a l ih =>
    rw [segLoop_cons_ws a l segments current (h a (List.mem_cons_self a l))]
    exact ih (fun s hs => h s (List.mem_cons_of_mem a hs))

lemma filter_nonblank_eq_nil_iff (l : List String) :
    l.filter (fun s => pyStrip s != "") = [] ↔
      l.all (fun s => pyStrip s == "") = true := by
  induction l with
  | nil => simp
  | cons a l ih =>
    rw [List.filter_cons, List.all_cons]
    cases h : pyStrip a == "" <;> simp [h, bne, ih]

/-- Counterexample to C1: with the remote scene parser failing on the empty
script, `_parse_script_into_scenes` falls back to the mechanical splitter,
which strips the single empty sentence away and returns the empty scene
list — not a scene holding the original script. -/
theorem segmenter_counterexample :
    parseScriptIntoScenes SceneParseRemote.failure "" = [] := rfl

/-- Claim C1 as amended: the mechanical splitter `split_script_into_segments`
never returns an empty sequence, and returns the full original script as the
sole segment when no sentence has a non-empty strip; the fallback of
`_parse_script_into_scenes`, however, keeps exactly the sentences with a
non-empty strip, so it returns the empty sequence precisely when every
`". "`-separated sentence is blank (in particular for the empty and the
whitespace-only script).  Neither function raises: both are total. -/
theorem segmenter_amended (script : String) :
    split_script_into_segments script ≠ [] ∧
    ((reSplitTerms script).all (fun s => pyStrip s == "") = true →
      split_script_into_segments script = [script]) ∧
    (parseScenesFallback script = [] ↔
      (splitDotSpace script).all (fun s => pyStrip s == "") = true) := by
  refine ⟨?_, ?_, ?_⟩
  · unfold split_script_into_segments
    split
    · simp
    · next h => exact h
  · intro hall
    have h : ∀ s ∈ reSplitTerms script, pyStrip s = "" := by
      intro s hs
      have := (List.all_eq_true.mp hall) s hs
      exact eq_of_beq this
    unfold split_script_into_segments
    rw [segLoop_all_ws _ _ _ h]
    rfl
  · unfold parseScenesFallback
    rw [List.map_eq_nil_iff]
    exact filter_nonblank_eq_nil_iff _

/-- Witness for C1: the amended statements at concrete inputs — a
whitespace-only script for the mechanical splitter, the empty script for
the parser fallback. -/
theorem segmenter_amended_witness :
    split_script_into_segments " " ≠ [] ∧
    ((reSplitTerms " ").all (fun s => pyStrip s == "") = true ∧
      split_script_into_segments " " = [" "]) ∧
    parseScenesFallback "" = [] :=
  ⟨(segmenter_amended " ").1,
    ⟨by decide, (segmenter_amended " ").2.1 (by decide)⟩,
    (segmenter_amended "").2.2.mpr (by decide)⟩

lemma frameCount_bounds (l : List Char) :
    2205 * l.length ≤ (l.map charFrameCount).sum ∧
      (l.map charFrameCount).sum ≤ 3307 * l.length := by
  induction l with
  | nil => simp
  | cons c l ih =>
    simp only [List.map_cons, List.sum_cons, List.length_cons]
    have hc : charFrameCount c = 3307 ∨ charFrameCount c = 2205 := by
      unfold charFrameCount
      split
      · exact Or.inl rfl
      · exact Or.inr rfl
    rcases hc with h | h <;> rw [h] <;> omega

/-- Claim C5, at the code bug: in `generate_synthetic_dzongkha_speech` the
consonant test U+0F40..U+0F6C is a sub-range of the Tibetan-block test
U+0F00..U+0FFF tried first, so the mid-tone branch is unreachable — every
character takes the high- or the low-tone branch, giving two frequency
bands, not three; in particular the consonant U+0F40 itself lands in the
high branch.  The remaining parts of the claim hold: whitespace contributes
silence frames, and the frame count is linearly bounded by the text length
in both directions. -/
theorem synthetic_speech_tone_bands :
    (∀ charCode : Nat,
      (toneBranch charCode).1 = Tone.high ∨ (toneBranch charCode).1 = Tone.low) ∧
    toneBranch 0xF40 = (Tone.high, 234) ∧
    (∀ text : String,
      2205 * text.data.length ≤ synthFrameCount text ∧
        synthFrameCount text ≤ 3307 * text.data.length) := by
  refine ⟨?_, by decide, fun text => frameCount_bounds text.data⟩
  intro charCode
  unfold toneBranch
  split
  · left
    rfl
  · next h1 =>
    split
    · next h2 => omega
    · right
      rfl

/-- Claim C9: `generate_speech` makes a remote (ElevenLabs) call exactly
when the client is configured and the voice id does not carry the
`fallback_` tag; a fallback-provenance id is never sent to the remote
provider, and a remote-provenance id always is while the client is
configured. -/
theorem tts_routing_provenance (clientConfigured : Bool) (text voiceId : String)
    (env : TtsEnv) :
    (generate_speech clientConfigured text voiceId env).2.contains TtsProvider.elevenlabs =
      (clientConfigured && !startsWithFallback voiceId) := by
  rcases env with ⟨e, o, f⟩
  unfold generate_speech generate_with_elevenlabs generate_with_fallback
  cases hc : clientConfigured <;> cases hs : startsWithFallback voiceId <;>
    cases e <;> cases o <;> cases f <;> simp [List.contains]

/-- Witness for C9: `tts_routing_provenance` at a concrete fallback-tagged
voice id with a configured client. -/
theorem tts_routing_provenance_witness :
    (generate_speech true "hello" "fallback_v7" ⟨true, true, true⟩).2.contains
        TtsProvider.elevenlabs =
      (true && !startsWithFallback "fallback_v7") :=
  tts_routing_provenance true "hello" "fallback_v7" ⟨true, true, true⟩

/-- Claim C8: both generation routes reject the empty script with the
validation error immediately: no pipeline stage (segmentation, audio,
image, assembly) is invoked, whatever the state of the providers and the
muxer. -/
theorem empty_script_fails_fast (voiceId : String) (clientConfigured : Bool)
    (ttsEnv : TtsEnv) (imgEnv : ImgEnv) (muxEnv : MuxEnvV) (envO : OfflineEnv) :
    generate_video_route "" voiceId clientConfigured ttsEnv imgEnv muxEnv =
        (RouteResp.validationError, []) ∧
    generate_video_offline_route "" envO = (RouteResp.validationError, []) :=
  ⟨rfl, rfl⟩

/-- An image environment in which the remote generator and both local
ffmpeg renders fail. -/
def imgEnvAllFail : ImgEnv :=
  { pyHash := fun _ => 0
    remote := fun _ => none
    colorRender := fun _ => none
    blackRender := none }

/-- Counterexample to C2: when the remote generator fails and both local
render invocations fail, `generate_image_from_text` raises — the
last-resort black render runs with `check=True` outside any handler, so
its failure propagates instead of being recovered. -/
theorem image_generation_counterexample :
    generate_image_from_text imgEnvAllFail "sunset over mountains" "realistic" =
      ImgOutcome.raised := rfl

/-- Claim C2 as amended: on any provider failure (any exception from the
remote generator, a failed download included) `generate_image_from_text`
returns the locally rendered fallback image without raising, provided at
least one of the two local render invocations succeeds; granted the
renderer contract that a successful invocation writes a non-empty file,
the artifact has non-zero byte length.  (When both local invocations fail
the call raises, per the counterexample.) -/
theorem image_generation_amended (env : ImgEnv) (textPrompt style : String)
    (hremote : env.remote (enhance_prompt textPrompt style) = none)
    (hcolorPos : ∀ c n, env.colorRender c = some n → 0 < n)
    (hblackPos : ∀ n, env.blackRender = some n → 0 < n)
    (hlocal : (env.colorRender (env.pyHash textPrompt % 16777215)).isSome = true ∨
      env.blackRender.isSome = true) :
    ∃ n, generate_image_from_text env textPrompt style = ImgOutcome.ok n true ∧ 0 < n := by
  unfold generate_image_from_text
  rw [hremote]
  unfold generate_fallback_image
  cases hcol : env.colorRender (env.pyHash textPrompt % 16777215) with
  | some n => exact ⟨n, rfl, hcolorPos _ n hcol⟩
  | none =>
    cases hblk : env.blackRender with
    | some n => exact ⟨n, rfl, hblackPos n hblk⟩
    | none =>
      rcases hlocal with h | h
      · rw [hcol] at h
        simp at h
      · rw [hblk] at h
        simp at h

/-- An image environment whose remote generator fails and whose colour
render succeeds with a 100-byte file. -/
def imgEnvColorOk : ImgEnv :=
  { pyHash := fun _ => 0
    remote := fun _ => none
    colorRender := fun _ => some 100
    blackRender := none }

/-- Witness for C2: `image_generation_amended` with its hypotheses
discharged at a concrete environment and prompt. -/
theorem image_generation_amended_witness :
    ∃ n, generate_image_from_text imgEnvColorOk "a red bridge" "cartoon" =
        ImgOutcome.ok n true ∧ 0 < n :=
  image_generation_amended imgEnvColorOk "a red bridge" "cartoon" rfl
    (fun _ n h => by
      simp only [imgEnvColorOk, Option.some.injEq] at h
      omega)
    (fun n h => by simp [imgEnvColorOk] at h)
    (Or.inl rfl)

/-- Counterexample to C6: the offline assembler `combine_video_segments`,
handed two successfully produced segments and a failing concatenation run,
returns its final path with no usable file there — not the first segment
content — because the concatenation exit status is never checked and no
fallback copy is attempted. -/
theorem assembler_counterexample :
    combine_video_segments [some "segA", some "segB"] none = some none ∧
    ((some none : Option (Option String)) == some (some "segA")) = false := by
  exact ⟨rfl, rfl⟩

/-- Claim C6 as amended: the online assembler `combine_media_to_video` does
return exactly the first created segment content when concatenation fails
(and trivially when only one segment exists, where no concatenation runs);
the offline `combine_video_segments` does not — on a concatenation failure
it returns a path with no usable file, per the counterexample. -/
theorem assembler_first_segment_amended (audioEx imageEx : List Bool) (env : MuxEnvV)
    (s : String) (rest : List String)
    (ha : audioEx.isEmpty = false) (hi : imageEx.isEmpty = false)
    (hsegs : createdSegments audioEx imageEx env = s :: rest)
    (hconcat : env.concatRes = none) :
    combine_media_to_video audioEx imageEx env = some s := by
  unfold combine_media_to_video
  rw [ha, hi]
  simp only [Bool.or_self, Bool.false_eq_true, if_false]
  rw [hsegs]
  cases rest with
  | nil => rfl
  | cons b r => rw [hconcat]

/-- A muxer environment whose per-pair runs succeed and whose
concatenation run fails. -/
def muxEnvConcatFail : MuxEnvV :=
  { segMux := fun i => if i == 0 then some "seg0" else some "seg1"
    concatRes := none
    lastResort := none }

/-- Witness for C6: `assembler_first_segment_amended` with its hypotheses
discharged at two existing pairs whose segment runs produce `seg0` and
`seg1` and whose concatenation fails. -/
theorem assembler_first_segment_amended_witness :
    combine_media_to_video [true, true] [true, true] muxEnvConcatFail = some "seg0" :=
  assembler_first_segment_amended [true, true] [true, true] muxEnvConcatFail
    "seg0" ["seg1"] rfl rfl (by decide) rfl

lemma generate_speech_ok (clientConfigured : Bool) (text voiceId : String) (env : TtsEnv)
    (hop : env.openaiOk = true) :
    ∃ a, (generate_speech clientConfigured text voiceId env).1 = Except.ok a := by
  unfold generate_speech generate_with_elevenlabs
  split
  · cases he : env.elevenOk
    · simp only [he, Bool.false_eq_true, if_false]
      exact ⟨AudioContent.openaiTts text, by simp [generate_with_fallback, hop]⟩
    · exact ⟨AudioContent.eleven voiceId text, by simp [he]⟩
  · exact ⟨AudioContent.openaiTts text, by simp [generate_with_fallback, hop]⟩

lemma genAudioLoop_ok (clientConfigured : Bool) (voiceId : String) (env : TtsEnv)
    (hop : env.openaiOk = true) (segs : List String) :
    ∃ l, (genAudioLoop clientConfigured voiceId env segs).1 = Except.ok l := by
  induction segs with
  | nil => exact ⟨[], rfl⟩
  | cons seg rest ih =>
    unfold genAudioLoop
    split
    · exact ih
    · obtain ⟨a, ha⟩ := generate_speech_ok clientConfigured seg voiceId env hop
      rw [ha]
      obtain ⟨l, hl⟩ := ih
      cases hr : genAudioLoop clientConfigured voiceId env rest with
      | mk r1 r2 =>
        rw [hr] at hl
        dsimp only at hl
        rw [hl]
        exact ⟨a :: l, rfl⟩

lemma generate_image_ok (env : ImgEnv) (textPrompt style : String)
    (hcol : ∀ c, (env.colorRender c).isSome = true) :
    ∃ n b, generate_image_from_text env textPrompt style = ImgOutcome.ok n b := by
  unfold generate_image_from_text generate_fallback_image
  cases hr : env.remote (enhance_prompt textPrompt style) with
  | some n => exact ⟨n, false, rfl⟩
  | none =>
    cases hc : env.colorRender (env.pyHash textPrompt % 16777215) with
    | some n => exact ⟨n, true, rfl⟩
    | none =>
      exfalso
      have := hcol (env.pyHash textPrompt % 16777215)
      rw [hc] at this
      simp at this

lemma genImageLoop_ok (env : ImgEnv) (style : String)
    (hcol : ∀ c, (env.colorRender c).isSome = true) (segs : List String) :
    ∃ l, (genImageLoop env style segs).1 = Except.ok l := by
  induction segs with
  | nil => exact ⟨[], rfl⟩
  | cons seg rest ih =>
    unfold genImageLoop
    split
    · exact ih
    · obtain ⟨n, b, hn⟩ := generate_image_ok env seg style hcol
      rw [hn]
      obtain ⟨l, hl⟩ := ih
      cases hr : genImageLoop env style rest with
      | mk r1 r2 =>
        rw [hr] at hl
        dsimp only at hl
        rw [hl]
        exact ⟨n :: l, rfl⟩

lemma offlineSegContents_eq_nil (env : OfflineEnv) (i : Nat) (l : List String) :
    offlineSegContents env i l = [] ↔ l = [] := by
  cases l <;> simp [offlineSegContents]

/-- A failing muxer environment: every per-pair run, the concatenation run
and the last-resort run all fail. -/
def muxEnvAllFail : MuxEnvV :=
  { segMux := fun _ => none
    concatRes := none
    lastResort := none }

/-- A TTS environment with only the OpenAI fallback working. -/
def ttsEnvOpenaiOnly : TtsEnv :=
  { elevenOk := false, openaiOk := true, ffmpegOk := false }

/-- An image environment whose remote generator works. -/
def imgEnvRemoteOk : ImgEnv :=
  { pyHash := fun _ => 0
    remote := fun _ => some 10
    colorRender := fun _ => none
    blackRender := none }

/-- Counterexample to C7: with every muxer invocation failing, the online
assembler creates zero usable segments, yet the job does not fail — the
pipeline returns the output path (with no file produced there) and the
route answers with the completed response, not an error. -/
theorem job_failure_counterexample :
    createdSegments [true] [true] muxEnvAllFail = [] ∧
    (processVideoGeneration "Hello" "v1" false ttsEnvOpenaiOnly imgEnvRemoteOk
        muxEnvAllFail).1 = Except.ok none ∧
    (generate_video_route "Hello" "v1" false ttsEnvOpenaiOnly imgEnvRemoteOk
        muxEnvAllFail).1 = RouteResp.success := by
  refine ⟨rfl, rfl, rfl⟩

/-- Claim C7 as amended: the online job never transitions to a failed
outcome for assembler reasons — given working audio and image fallbacks it
returns the completed response whatever the muxer does, zero usable
segments included (per the counterexample, where the caller still receives
a path); only the offline pipeline yields no artifact, and it does so
exactly when the splitter produces zero segments. -/
theorem job_failure_amended (script voiceId : String) (clientConfigured : Bool)
    (ttsEnv : TtsEnv) (imgEnv : ImgEnv) (muxEnv : MuxEnvV) (envO : OfflineEnv)
    (hs : (script == "") = false)
    (hop : ttsEnv.openaiOk = true)
    (hcol : ∀ c, (imgEnv.colorRender c).isSome = true) :
    (generate_video_route script voiceId clientConfigured ttsEnv imgEnv muxEnv).1 ≠
        RouteResp.serverError ∧
    ((generate_video_offline_model script envO).1 = none ↔ split_script script = []) := by
  constructor
  · unfold generate_video_route
    rw [hs]
    simp only [Bool.false_eq_true, if_false]
    obtain ⟨la, ha⟩ :=
      genAudioLoop_ok clientConfigured voiceId ttsEnv hop (split_script_into_segments script)
    obtain ⟨li, hi⟩ := genImageLoop_ok imgEnv "realistic" hcol (split_script_into_segments script)
    unfold processVideoGeneration
    cases hra : genAudioLoop clientConfigured voiceId ttsEnv (split_script_into_segments script) with
    | mk a1 a2 =>
      rw [hra] at ha
      dsimp only at ha
      rw [ha]
      cases hrb : genImageLoop imgEnv "realistic" (split_script_into_segments script) with
      | mk b1 b2 =>
        rw [hrb] at hi
        dsimp only at hi
        rw [hi]
        intro h
        exact RouteResp.noConfusion h
  · unfold generate_video_offline_model
    dsimp only
    cases hseg : split_script script with
    | nil => simp [offlineSegContents, combine_video_segments]
    | cons a l =>
      constructor
      · intro h
        exfalso
        rw [show offlineSegContents envO 0 (a :: l) =
            envO.segMux 0 :: offlineSegContents envO 1 l from rfl] at h
        cases hl : offlineSegContents envO 1 l with
        | nil =>
          rw [hl] at h
          simp [combine_video_segments] at h
        | cons b r =>
          rw [hl] at h
          simp [combine_video_segments] at h
      · intro h
        exact List.noConfusion h

/-- An offline muxer environment whose runs all succeed. -/
def offlineEnvOk : OfflineEnv :=
  { segMux := fun _ => some "oseg", concatRes := some "ocat" }

/-- Witness for C7: `job_failure_amended` with its hypotheses discharged at
a concrete non-empty script and working fallback environments. -/
theorem job_failure_amended_witness :
    (generate_video_route "Hi there" "v" false ttsEnvOpenaiOnly imgEnvColorOk
        muxEnvAllFail).1 ≠ RouteResp.serverError ∧
    ((generate_video_offline_model "Hi there" offlineEnvOk).1 = none ↔
      split_script "Hi there" = []) :=
  job_failure_amended "Hi there" "v" false ttsEnvOpenaiOnly imgEnvColorOk
    muxEnvAllFail offlineEnvOk rfl rfl (fun _ => rfl)
